import Mathlib

/-!
# Verification of `libserial` (`SerialPort.cpp`)

A shallow embedding of `src/libserial/src/SerialPort.cpp`.

The C++ code is a thin wrapper around POSIX terminal-control calls.  We model:

* the `termios` structure as a record of natural-number flag words
  (`tcflag_t` is a 32-bit unsigned integer, so the C bitwise complement
  `~m` is modelled as `0xFFFFFFFF ^^^ m`);
* the private state of `SerialPortImpl` (`mIsOpen`, `mFileDescriptor`,
  `mOldPortSettings`) as `PortState`;
* the operating system as `OsState`: the set of live file descriptors plus
  the device's current line settings;
* the outcome of each fallible OS call (`open`, `tcgetattr`, `tcsetattr`,
  `fcntl`, `ioctl`, `read`, `write`) as Boolean fields of an environment
  `Env` supplied to each operation;
* a C++ `throw` as an `Res.err` return value; each operation also returns
  the updated handle state, the updated OS state, and the trace of OS calls
  it performed.

The numeric values of the termios constants are the Linux ones
(`PARENB = 0o400`, etc.), as used by the repository.
-/

namespace LibSerial

/-- Linux termios constant `PARENB` (enable parity), octal 0400. -/
def PARENB : Nat := 256

/-- Linux termios constant `PARODD` (odd parity), octal 01000. -/
def PARODD : Nat := 512

/-- Linux termios constant `CSTOPB` (two stop bits), octal 0100. -/
def CSTOPB : Nat := 64

/-- Linux termios constant `CSIZE` (character-size field mask), octal 060. -/
def CSIZE : Nat := 48

/-- Linux termios constant `CS5`. -/
def CS5 : Nat := 0

/-- Linux termios constant `CS6`. -/
def CS6 : Nat := 16

/-- Linux termios constant `CS7`. -/
def CS7 : Nat := 32

/-- Linux termios constant `CS8`. -/
def CS8 : Nat := 48

/-- Linux termios constant `CREAD` (enable receiver), octal 0200. -/
def CREAD : Nat := 128

/-- Linux termios constant `CLOCAL` (ignore modem control lines), octal 04000. -/
def CLOCAL : Nat := 2048

/-- Linux termios constant `CRTSCTS` (hardware flow control), bit 31. -/
def CRTSCTS : Nat := 2147483648

/-- Bitwise complement of a flag constant within the 32-bit `tcflag_t`
word: the C expression `~m` evaluated on `uint32`. -/
def compl32 (m : Nat) : Nat := 4294967295 ^^^ m

/-- The `termios` structure: input, output, control and local mode flag
words, the `c_cc[VMIN]` and `c_cc[VTIME]` control characters, and the
input/output speed codes manipulated by `cfsetispeed` / `cfsetospeed`. -/
structure Termios where
  c_iflag : Nat
  c_oflag : Nat
  c_cflag : Nat
  c_lflag : Nat
  vmin : Nat
  vtime : Nat
  ispeed : Nat
  ospeed : Nat
deriving Repr, DecidableEq

/-- Private state of `SerialPortImpl`: the device-file name, the
open flag, the stored file descriptor (`-1` initially, as `open` returns
`-1` on failure), and the settings snapshot `mOldPortSettings`. -/
structure PortState where
  mSerialPortName : String
  mIsOpen : Bool
  mFileDescriptor : Int
  mOldPortSettings : Termios
deriving Repr, DecidableEq

/-- Operating-system state visible to the handle: the list of file
descriptors currently open in the OS and the serial device's current
line settings (what `tcgetattr` reports and `tcsetattr` overwrites). -/
structure OsState where
  liveFds : List Int
  dev : Termios
deriving Repr, DecidableEq

/-- The exception taxonomy of `SerialPort.cpp`: the nested exception
classes `AlreadyOpen`, `NotOpen`, `OpenFailed`, `UnsupportedBaudRate`,
plus `std::invalid_argument` and `std::runtime_error`. -/
inductive Err
  | AlreadyOpen
  | NotOpen
  | OpenFailed
  | UnsupportedBaudRate
  | InvalidArgument
  | RuntimeErr
deriving Repr, DecidableEq

/-- One OS call performed by an operation, for the call trace. -/
inductive OsCall
  | openCall
  | tcgetattrCall
  | tcsetattrCall
  | fcntlCall
  | ioctlCall
  | readCall
  | writeCall
  | closeCall
deriving Repr, DecidableEq

/-- Result channel of a C++ member function: a thrown exception or a
normal return value. -/
inductive Res (α : Type)
  | err (e : Err)
  | ok (a : α)
deriving Repr, DecidableEq

/-- Outcomes of the fallible OS calls made during one operation, plus the
values they produce.  `avail` is the sequence of results of successive
`FIONREAD` polls inside `ReadByte` (entries beyond the list are `false`). -/
structure Env where
  openOk : Bool
  newFd : Int
  getOk : Bool
  setOk : Bool
  fcntlOk : Bool
  ioctlOk : Bool
  readOk : Bool
  writeOk : Bool
  readVal : Nat
  bytesAvailable : Nat
  avail : List Bool
deriving Repr, DecidableEq

/-- Full outcome of one operation: its result, the new handle state, the
new OS state, and the trace of OS calls performed. -/
structure OpResult (ρ : Type) where
  result : ρ
  port : PortState
  os : OsState
  trace : List OsCall
deriving Repr, DecidableEq

/-- The `Parity` enumeration.  `invalid` stands for any integer cast into
the enumeration that is none of `PARITY_EVEN`, `PARITY_ODD`,
`PARITY_NONE` (the `default` case of the C++ `switch`). -/
inductive Parity
  | even
  | odd
  | none
  | invalid
deriving Repr, DecidableEq

/-- The `StopBits` enumeration, with `invalid` for out-of-enum values. -/
inductive StopBits
  | one
  | two
  | invalid
deriving Repr, DecidableEq

/-- The `FlowControl` enumeration, with `invalid` for out-of-enum values. -/
inductive FlowControl
  | hard
  | none
  | invalid
deriving Repr, DecidableEq

/-- The legal numeric values of the `CharacterSize` enumeration
(`CHAR_SIZE_5` … `CHAR_SIZE_8`, whose values are the `CSx` constants). -/
def charSizes : List Nat := [CS5, CS6, CS7, CS8]

/-- Modelled from the spec: the fixed list of standard baud-rate codes
(the Linux `speed_t` values `B0` … `B38400`, `B57600`, `B115200`,
`B230400`) accepted by `cfsetispeed` / `cfsetospeed`; the enumeration
itself lives in the header `SerialPort.h`, which is not under `src/`.
`cfsetispeed` fails exactly on values outside this list. -/
def baudRates : List Nat :=
  [0, 1, 2, 3, 4, 5, 6, 7, 8, 9, 10, 11, 12, 13, 14, 15, 4097, 4098, 4099]

namespace SerialPortImpl

/-- `SerialPortImpl::SerialPortImpl`: starts closed with descriptor `-1`. -/
def ctor (serialPortName : String) (zeroed : Termios) : PortState :=
  ⟨serialPortName, false, -1, zeroed⟩

/-- `SerialPortImpl::IsOpen`. -/
def IsOpen (st : PortState) : Bool := st.mIsOpen

/-- `SerialPortImpl::Open` (lines 371–453): throw `AlreadyOpen` if open;
`open(name, O_RDWR|O_NOCTTY|O_NONBLOCK)`, throw `OpenFailed` on failure;
`tcgetattr` into `mOldPortSettings`, throw `OpenFailed` on failure; apply
the baseline settings (`c_lflag = 0`, `c_oflag = 0`,
`c_cflag |= CREAD | CLOCAL`, `c_cc[VMIN] = 0`, `c_cc[VTIME] = 0`) with
`tcsetattr`, throw `OpenFailed` on failure; `fcntl(F_SETOWN)`, throw
`OpenFailed` on failure; finally set `mIsOpen = true`.  Note that on the
failure paths after a successful `open` the descriptor stays in
`liveFds`: the code never closes it. -/
def Open (st : PortState) (os : OsState) (env : Env) : OpResult (Res Unit) :=
  if st.mIsOpen then ⟨.err .AlreadyOpen, st, os, []⟩
  else if !env.openOk then
    ⟨.err .OpenFailed, { st with mFileDescriptor := -1 }, os, [.openCall]⟩
  else
    let st1 := { st with mFileDescriptor := env.newFd }
    let os1 := { os with liveFds := env.newFd :: os.liveFds }
    if !env.getOk then
      ⟨.err .OpenFailed, st1, os1, [.openCall, .tcgetattrCall]⟩
    else
      let st2 := { st1 with mOldPortSettings := os.dev }
      let ps : Termios :=
        { os.dev with
          c_lflag := 0
          c_oflag := 0
          c_cflag := os.dev.c_cflag ||| (CREAD ||| CLOCAL)
          vmin := 0
          vtime := 0 }
      if !env.setOk then
        ⟨.err .OpenFailed, st2, os1, [.openCall, .tcgetattrCall, .tcsetattrCall]⟩
      else
        let os2 := { os1 with dev := ps }
        if !env.fcntlOk then
          ⟨.err .OpenFailed, st2, os2,
            [.openCall, .tcgetattrCall, .tcsetattrCall, .fcntlCall]⟩
        else
          ⟨.ok (), { st2 with mIsOpen := true }, os2,
            [.openCall, .tcgetattrCall, .tcsetattrCall, .fcntlCall]⟩

/-- `SerialPortImpl::Close` (lines 462–489): throw `NotOpen` if closed;
`tcsetattr(mOldPortSettings)` with the return value ignored; `close(fd)`;
set `mIsOpen = false`. -/
def Close (st : PortState) (os : OsState) (env : Env) : OpResult (Res Unit) :=
  if !st.mIsOpen then ⟨.err .NotOpen, st, os, []⟩
  else
    let os1 := if env.setOk then { os with dev := st.mOldPortSettings } else os
    let os2 := { os1 with liveFds := os1.liveFds.erase st.mFileDescriptor }
    ⟨.ok (), { st with mIsOpen := false }, os2, [.tcsetattrCall, .closeCall]⟩

/-- `SerialPortImpl::~SerialPortImpl` (lines 359–369): `Close()` if open,
otherwise nothing. -/
def dtor (st : PortState) (os : OsState) (env : Env) : PortState × OsState :=
  if st.mIsOpen then
    let r := Close st os env
    (r.port, r.os)
  else (st, os)

/-- Shared tail of the four `Set…` read-modify-write mutators: apply a
modified `c_cflag` with `tcsetattr`, throwing `std::invalid_argument` on
failure (the prior `tcgetattr` is already in the trace). -/
def applyCflag (st : PortState) (os : OsState) (env : Env) (newCflag : Nat) :
    OpResult (Res Unit) :=
  if !env.setOk then
    ⟨.err .InvalidArgument, st, os, [.tcgetattrCall, .tcsetattrCall]⟩
  else
    ⟨.ok (), st, { os with dev := { os.dev with c_cflag := newCflag } },
      [.tcgetattrCall, .tcsetattrCall]⟩

/-- `SerialPortImpl::SetBaudRate` (lines 491–534): `NotOpen` guard;
`tcgetattr`, throwing `std::runtime_error` on failure; `cfsetispeed` and
`cfsetospeed`, throwing `UnsupportedBaudRate` if the code is not a legal
speed code; `tcsetattr`, throwing `UnsupportedBaudRate` on failure. -/
def SetBaudRate (baudRate : Nat) (st : PortState) (os : OsState) (env : Env) :
    OpResult (Res Unit) :=
  if !st.mIsOpen then ⟨.err .NotOpen, st, os, []⟩
  else if !env.getOk then ⟨.err .RuntimeErr, st, os, [.tcgetattrCall]⟩
  else if baudRate ∉ baudRates then
    ⟨.err .UnsupportedBaudRate, st, os, [.tcgetattrCall]⟩
  else if !env.setOk then
    ⟨.err .UnsupportedBaudRate, st, os, [.tcgetattrCall, .tcsetattrCall]⟩
  else
    ⟨.ok (), st, { os with dev := { os.dev with ispeed := baudRate, ospeed := baudRate } },
      [.tcgetattrCall, .tcsetattrCall]⟩

/-- `SerialPortImpl::GetBaudRate` (lines 536–559): `NotOpen` guard;
`tcgetattr`, throwing `std::runtime_error` on failure; return
`cfgetispeed` of the current settings. -/
def GetBaudRate (st : PortState) (os : OsState) (env : Env) : OpResult (Res Nat) :=
  if !st.mIsOpen then ⟨.err .NotOpen, st, os, []⟩
  else if !env.getOk then ⟨.err .RuntimeErr, st, os, [.tcgetattrCall]⟩
  else ⟨.ok os.dev.ispeed, st, os, [.tcgetattrCall]⟩

/-- `SerialPortImpl::SetCharSize` (lines 561–595): `NotOpen` guard;
`tcgetattr`, throwing `std::runtime_error` on failure;
`c_cflag &= ~CSIZE; c_cflag |= charSize`; `tcsetattr`, throwing
`std::invalid_argument` on failure. -/
def SetCharSize (charSize : Nat) (st : PortState) (os : OsState) (env : Env) :
    OpResult (Res Unit) :=
  if !st.mIsOpen then ⟨.err .NotOpen, st, os, []⟩
  else if !env.getOk then ⟨.err .RuntimeErr, st, os, [.tcgetattrCall]⟩
  else applyCflag st os env ((os.dev.c_cflag &&& compl32 CSIZE) ||| charSize)

/-- `SerialPortImpl::GetCharSize` (lines 597–620): `NotOpen` guard;
`tcgetattr`, throwing `std::runtime_error` on failure; return
`c_cflag & CSIZE`. -/
def GetCharSize (st : PortState) (os : OsState) (env : Env) : OpResult (Res Nat) :=
  if !st.mIsOpen then ⟨.err .NotOpen, st, os, []⟩
  else if !env.getOk then ⟨.err .RuntimeErr, st, os, [.tcgetattrCall]⟩
  else ⟨.ok (os.dev.c_cflag &&& CSIZE), st, os, [.tcgetattrCall]⟩

/-- `SerialPortImpl::SetParity` (lines 622–669): `NotOpen` guard;
`tcgetattr`, throwing `std::runtime_error` on failure; the `switch` on
the parity value (`default` throws `std::invalid_argument` before any
settings write); `tcsetattr`, throwing `std::invalid_argument` on
failure. -/
def SetParity (parityType : Parity) (st : PortState) (os : OsState) (env : Env) :
    OpResult (Res Unit) :=
  if !st.mIsOpen then ⟨.err .NotOpen, st, os, []⟩
  else if !env.getOk then ⟨.err .RuntimeErr, st, os, [.tcgetattrCall]⟩
  else
    match parityType with
    | .even => applyCflag st os env ((os.dev.c_cflag ||| PARENB) &&& compl32 PARODD)
    | .odd => applyCflag st os env (os.dev.c_cflag ||| (PARENB ||| PARODD))
    | .none => applyCflag st os env (os.dev.c_cflag &&& compl32 PARENB)
    | .invalid => ⟨.err .InvalidArgument, st, os, [.tcgetattrCall]⟩

/-- `SerialPortImpl::GetParity` (lines 671–706): `NotOpen` guard;
`tcgetattr`, throwing `std::runtime_error` on failure; test `PARENB`
first, then `PARODD`. -/
def GetParity (st : PortState) (os : OsState) (env : Env) : OpResult (Res Parity) :=
  if !st.mIsOpen then ⟨.err .NotOpen, st, os, []⟩
  else if !env.getOk then ⟨.err .RuntimeErr, st, os, [.tcgetattrCall]⟩
  else if os.dev.c_cflag &&& PARENB ≠ 0 then
    if os.dev.c_cflag &&& PARODD ≠ 0 then ⟨.ok .odd, st, os, [.tcgetattrCall]⟩
    else ⟨.ok .even, st, os, [.tcgetattrCall]⟩
  else ⟨.ok .none, st, os, [.tcgetattrCall]⟩

/-- `SerialPortImpl::SetNumOfStopBits` (lines 708–750): `NotOpen` guard;
`tcgetattr`, throwing `std::runtime_error` on failure; the `switch`
(`default` throws `std::invalid_argument`); `tcsetattr`, throwing
`std::invalid_argument` on failure. -/
def SetNumOfStopBits (numOfStopBits : StopBits) (st : PortState) (os : OsState)
    (env : Env) : OpResult (Res Unit) :=
  if !st.mIsOpen then ⟨.err .NotOpen, st, os, []⟩
  else if !env.getOk then ⟨.err .RuntimeErr, st, os, [.tcgetattrCall]⟩
  else
    match numOfStopBits with
    | .one => applyCflag st os env (os.dev.c_cflag &&& compl32 CSTOPB)
    | .two => applyCflag st os env (os.dev.c_cflag ||| CSTOPB)
    | .invalid => ⟨.err .InvalidArgument, st, os, [.tcgetattrCall]⟩

/-- `SerialPortImpl::GetNumOfStopBits` (lines 752–778): `NotOpen` guard;
`tcgetattr`, throwing `std::runtime_error` on failure; test `CSTOPB`. -/
def GetNumOfStopBits (st : PortState) (os : OsState) (env : Env) :
    OpResult (Res StopBits) :=
  if !st.mIsOpen then ⟨.err .NotOpen, st, os, []⟩
  else if !env.getOk then ⟨.err .RuntimeErr, st, os, [.tcgetattrCall]⟩
  else if os.dev.c_cflag &&& CSTOPB ≠ 0 then ⟨.ok .two, st, os, [.tcgetattrCall]⟩
  else ⟨.ok .one, st, os, [.tcgetattrCall]⟩

/-- `SerialPortImpl::SetFlowControl` (lines 780–822): `NotOpen` guard;
`tcgetattr`, throwing `std::runtime_error` on failure; the `switch`
(`default` throws `std::invalid_argument`); `tcsetattr`, throwing
`std::invalid_argument` on failure. -/
def SetFlowControl (flowControl : FlowControl) (st : PortState) (os : OsState)
    (env : Env) : OpResult (Res Unit) :=
  if !st.mIsOpen then ⟨.err .NotOpen, st, os, []⟩
  else if !env.getOk then ⟨.err .RuntimeErr, st, os, [.tcgetattrCall]⟩
  else
    match flowControl with
    | .hard => applyCflag st os env (os.dev.c_cflag ||| CRTSCTS)
    | .none => applyCflag st os env (os.dev.c_cflag &&& compl32 CRTSCTS)
    | .invalid => ⟨.err .InvalidArgument, st, os, [.tcgetattrCall]⟩

/-- `SerialPortImpl::GetFlowControl` (lines 824–850): `NotOpen` guard;
`tcgetattr`, throwing `std::runtime_error` on failure; test `CRTSCTS`. -/
def GetFlowControl (st : PortState) (os : OsState) (env : Env) :
    OpResult (Res FlowControl) :=
  if !st.mIsOpen then ⟨.err .NotOpen, st, os, []⟩
  else if !env.getOk then ⟨.err .RuntimeErr, st, os, [.tcgetattrCall]⟩
  else if os.dev.c_cflag &&& CRTSCTS ≠ 0 then ⟨.ok .hard, st, os, [.tcgetattrCall]⟩
  else ⟨.ok .none, st, os, [.tcgetattrCall]⟩

/-- `SerialPortImpl::IsDataAvailable` (lines 852–873): `NotOpen` guard;
`ioctl(FIONREAD)`, throwing `std::runtime_error` on failure; return
whether the reported byte count is non-zero. -/
def IsDataAvailable (st : PortState) (os : OsState) (env : Env) :
    OpResult (Res Bool) :=
  if !st.mIsOpen then ⟨.err .NotOpen, st, os, []⟩
  else if !env.ioctlOk then ⟨.err .RuntimeErr, st, os, [.ioctlCall]⟩
  else ⟨.ok (env.bytesAvailable != 0), st, os, [.ioctlCall]⟩

/-- `SerialPortImpl::ReadByte` (lines 875–900): `NotOpen` guard; the loop
`while (!IsDataAvailable());` polling `FIONREAD` (an `ioctl` failure
inside the loop propagates as `std::runtime_error`); then a single
one-byte `read`, throwing `std::runtime_error` on failure.  `env.avail`
lists the successive poll outcomes; if no entry is `true` the loop never
exits, which is reported as the `Option.none` result (the trace then
abstracts the unbounded run of `ioctl` calls as the polls made so far;
the step-by-step loop semantics is `pollStep` below). -/
def ReadByte (st : PortState) (os : OsState) (env : Env) :
    OpResult (Option (Res Nat)) :=
  if !st.mIsOpen then ⟨some (.err .NotOpen), st, os, []⟩
  else if !env.ioctlOk then ⟨some (.err .RuntimeErr), st, os, [.ioctlCall]⟩
  else
    match env.avail.findIdx? (fun b => b) with
    | Option.none => ⟨Option.none, st, os, []⟩
    | some n =>
      let polls := List.replicate (n + 1) OsCall.ioctlCall
      if !env.readOk then ⟨some (.err .RuntimeErr), st, os, polls ++ [.readCall]⟩
      else ⟨some (.ok env.readVal), st, os, polls ++ [.readCall]⟩

/-- `SerialPortImpl::WriteByte` (lines 902–922): `NotOpen` guard; a single
one-byte `write`, throwing `std::runtime_error` on failure. -/
def WriteByte (dataByte : Nat) (st : PortState) (os : OsState) (env : Env) :
    OpResult (Res Unit) :=
  if !st.mIsOpen then ⟨.err .NotOpen, st, os, []⟩
  else if !env.writeOk then ⟨.err .RuntimeErr, st, os, [.writeCall]⟩
  else ⟨.ok (), st, os, [.writeCall]⟩

end SerialPortImpl

/-- One iteration of the busy-wait loop `while (!IsDataAvailable());` in
`ReadByte`, as a step function on the loop state: `some k` means the loop
is about to make its `k`-th poll of `IsDataAvailable`, `none` means the
loop has exited.  `avail k` is the result of the `k`-th poll.  The body
does nothing besides the poll: no sleep, no yield, no iteration bound. -/
def pollStep (avail : Nat → Bool) : Option Nat → Option Nat
  | Option.none => Option.none
  | some k => if avail k then Option.none else some (k + 1)

/-- Declared exception set (the C++ dynamic exception specification) of
`SerialPortImpl::GetParity`, line 673: `throw(SerialPort::NotOpen)`. -/
def declaredErrorsGetParity : List Err := [.NotOpen]

/-- Declared exception set of `SerialPortImpl::GetNumOfStopBits`,
line 754: `throw(SerialPort::NotOpen)`. -/
def declaredErrorsGetNumOfStopBits : List Err := [.NotOpen]

/-- Declared exception set of `SerialPortImpl::GetFlowControl`,
line 826: `throw(SerialPort::NotOpen)`. -/
def declaredErrorsGetFlowControl : List Err := [.NotOpen]

/-- Sequencing of two steps of the public `SerialPort::Open` overload: if
the first step threw, the exception propagates and the second never runs;
otherwise the second runs on the states the first produced, and the call
traces concatenate. -/
def andThen (r : OpResult (Res Unit))
    (k : PortState → OsState → OpResult (Res Unit)) : OpResult (Res Unit) :=
  match r.result with
  | .err _ => r
  | .ok _ =>
    let r2 := k r.port r.os
    ⟨r2.result, r2.port, r2.os, r.trace ++ r2.trace⟩

/-- The full-open convenience overload `SerialPort::Open(baudRate,
charSize, parityType, stopBits, flowControl)` (lines 203–226): plain
`Open()`, then `SetCharSize`, `SetParity`, `SetNumOfStopBits`,
`SetFlowControl`.  The `baudRate` parameter is accepted but never used:
the body contains no call to `SetBaudRate`. -/
def SerialPort.OpenFull (baudRate : Nat) (charSize : Nat) (parityType : Parity)
    (stopBits : StopBits) (flowControl : FlowControl)
    (st : PortState) (os : OsState) (env : Env) : OpResult (Res Unit) :=
  andThen (SerialPortImpl.Open st os env) (fun st1 os1 =>
    andThen (SerialPortImpl.SetCharSize charSize st1 os1 env) (fun st2 os2 =>
      andThen (SerialPortImpl.SetParity parityType st2 os2 env) (fun st3 os3 =>
        andThen (SerialPortImpl.SetNumOfStopBits stopBits st3 os3 env)
          (fun st4 os4 =>
            SerialPortImpl.SetFlowControl flowControl st4 os4 env))))

/-! ## Helper lemmas on bit operations -/

/-- AND distributes over OR on `Nat`, from the right. -/
theorem lor_land_distrib (a b m : Nat) :
    (a ||| b) &&& m = (a &&& m) ||| (b &&& m) := by
  apply Nat.eq_of_testBit_eq
  intro i
  simp [Nat.testBit_land, Nat.testBit_lor, Bool.and_or_distrib_right]

/-- Masking twice with masks whose intersection is empty yields zero. -/
theorem land_land_eq_zero (x : Nat) {k n : Nat} (h : k &&& n = 0) :
    (x &&& k) &&& n = 0 := by
  rw [Nat.land_assoc, h, Nat.and_zero]

/-- An OR with a non-zero word is non-zero. -/
theorem lor_ne_zero_right (x : Nat) {y : Nat} (h : y ≠ 0) : x ||| y ≠ 0 := by
  intro hxy
  apply h
  apply Nat.eq_of_testBit_eq
  intro i
  have hb := congrArg (fun t => Nat.testBit t i) hxy
  simp [Nat.testBit_lor] at hb
  simp [hb.2, Nat.zero_testBit]

/-! ## Sample states used by the witnesses -/

/-- A zeroed `termios` record. -/
def t0 : Termios := ⟨0, 0, 0, 0, 0, 0, 0, 0⟩

/-- A closed handle, as produced by the constructor. -/
def stClosed : PortState := SerialPortImpl.ctor "tty" t0

/-- An open handle on descriptor 3. -/
def stOpen : PortState := ⟨"tty", true, 3, t0⟩

/-- OS state with descriptor 3 live and zeroed device settings. -/
def os0 : OsState := ⟨[3], t0⟩

/-- An environment in which every OS call succeeds. -/
def envAllOk : Env := ⟨true, 3, true, true, true, true, true, true, 65, 1, [true]⟩

/-! ## Claims -/

/-- C3: every operation that requires an open port (each Get/Set
configuration accessor and mutator, `ReadByte`, `WriteByte`,
`IsDataAvailable`), called on a closed handle, fails with the `NotOpen`
error, performs no OS call (empty trace), and leaves the handle state and
the OS state unchanged. -/
theorem closed_ops_fail_notOpen (st : PortState) (os : OsState) (env : Env)
    (h : st.mIsOpen = false) :
    (∀ r, SerialPortImpl.SetBaudRate r st os env = ⟨.err .NotOpen, st, os, []⟩) ∧
    SerialPortImpl.GetBaudRate st os env = ⟨.err .NotOpen, st, os, []⟩ ∧
    (∀ s, SerialPortImpl.SetCharSize s st os env = ⟨.err .NotOpen, st, os, []⟩) ∧
    SerialPortImpl.GetCharSize st os env = ⟨.err .NotOpen, st, os, []⟩ ∧
    (∀ p, SerialPortImpl.SetParity p st os env = ⟨.err .NotOpen, st, os, []⟩) ∧
    SerialPortImpl.GetParity st os env = ⟨.err .NotOpen, st, os, []⟩ ∧
    (∀ b, SerialPortImpl.SetNumOfStopBits b st os env = ⟨.err .NotOpen, st, os, []⟩) ∧
    SerialPortImpl.GetNumOfStopBits st os env = ⟨.err .NotOpen, st, os, []⟩ ∧
    (∀ f, SerialPortImpl.SetFlowControl f st os env = ⟨.err .NotOpen, st, os, []⟩) ∧
    SerialPortImpl.GetFlowControl st os env = ⟨.err .NotOpen, st, os, []⟩ ∧
    SerialPortImpl.IsDataAvailable st os env = ⟨.err .NotOpen, st, os, []⟩ ∧
    SerialPortImpl.ReadByte st os env = ⟨some (.err .NotOpen), st, os, []⟩ ∧
    (∀ d, SerialPortImpl.WriteByte d st os env = ⟨.err .NotOpen, st, os, []⟩) := by
  refine ⟨?_, ?_, ?_, ?_, ?_, ?_, ?_, ?_, ?_, ?_, ?_, ?_, ?_⟩ <;>
    simp [SerialPortImpl.SetBaudRate, SerialPortImpl.GetBaudRate,
      SerialPortImpl.SetCharSize, SerialPortImpl.GetCharSize,
      SerialPortImpl.SetParity, SerialPortImpl.GetParity,
      SerialPortImpl.SetNumOfStopBits, SerialPortImpl.GetNumOfStopBits,
      SerialPortImpl.SetFlowControl, SerialPortImpl.GetFlowControl,
      SerialPortImpl.IsDataAvailable, SerialPortImpl.ReadByte,
      SerialPortImpl.WriteByte, h]

/-- Witness for C3 at a concrete closed handle. -/
theorem closed_ops_fail_notOpen_witness :
    SerialPortImpl.GetParity stClosed os0 envAllOk =
      ⟨.err .NotOpen, stClosed, os0, []⟩ ∧
    SerialPortImpl.ReadByte stClosed os0 envAllOk =
      ⟨some (.err .NotOpen), stClosed, os0, []⟩ ∧
    SerialPortImpl.SetParity .even stClosed os0 envAllOk =
      ⟨.err .NotOpen, stClosed, os0, []⟩ := by
  have h := closed_ops_fail_notOpen stClosed os0 envAllOk (by decide)
  exact ⟨h.2.2.2.2.2.1, h.2.2.2.2.2.2.2.2.2.2.2.1, h.2.2.2.2.1 .even⟩

/-- C4: for every legal enumeration value of parity, stop bits, flow
control and character size, on an open handle, `Set` followed by the
matching `Get` on the resulting line-settings state returns exactly the
value that was set: `SetParity even` sets `PARENB` and clears `PARODD`,
`SetParity odd` sets both, `SetParity none` clears `PARENB`, and
`GetParity` tests `PARENB` first and then `PARODD`, so `Get` after `Set`
yields the value most recently set; likewise for `CSTOPB`, `CRTSCTS` and
the `CSIZE` field. -/
theorem set_then_get_roundTrip (st : PortState) (os : OsState) (env env2 : Env)
    (h : st.mIsOpen = true) (hg : env.getOk = true) (hs : env.setOk = true)
    (hg2 : env2.getOk = true) :
    (∀ p : Parity, p ≠ .invalid →
      (SerialPortImpl.GetParity st (SerialPortImpl.SetParity p st os env).os
        env2).result = .ok p) ∧
    (∀ b : StopBits, b ≠ .invalid →
      (SerialPortImpl.GetNumOfStopBits st
        (SerialPortImpl.SetNumOfStopBits b st os env).os env2).result = .ok b) ∧
    (∀ f : FlowControl, f ≠ .invalid →
      (SerialPortImpl.GetFlowControl st
        (SerialPortImpl.SetFlowControl f st os env).os env2).result = .ok f) ∧
    (∀ s ∈ charSizes,
      (SerialPortImpl.GetCharSize st (SerialPortImpl.SetCharSize s st os env).os
        env2).result = .ok s) := by
  set c := os.dev.c_cflag with hc
  refine ⟨?_, ?_, ?_, ?_⟩
  · intro p hp
    cases p with
    | invalid => exact absurd rfl hp
    | even =>
      have h1 : ((c ||| PARENB) &&& compl32 PARODD) &&& PARENB ≠ 0 := by
        rw [Nat.land_assoc, (by decide : compl32 PARODD &&& PARENB = PARENB),
          lor_land_distrib, (by decide : PARENB &&& PARENB = PARENB)]
        exact lor_ne_zero_right _ (by decide)
      have h2 : ((c ||| PARENB) &&& compl32 PARODD) &&& PARODD = 0 := by
        rw [Nat.land_assoc, (by decide : compl32 PARODD &&& PARODD = 0),
          Nat.and_zero]
      simp [SerialPortImpl.SetParity, SerialPortImpl.GetParity,
        SerialPortImpl.applyCflag, h, hg, hs, hg2, ← hc, h1, h2]
    | odd =>
      have h1 : (c ||| (PARENB ||| PARODD)) &&& PARENB ≠ 0 := by
        rw [lor_land_distrib,
          (by decide : (PARENB ||| PARODD) &&& PARENB = PARENB)]
        exact lor_ne_zero_right _ (by decide)
      have h2 : (c ||| (PARENB ||| PARODD)) &&& PARODD ≠ 0 := by
        rw [lor_land_distrib,
          (by decide : (PARENB ||| PARODD) &&& PARODD = PARODD)]
        exact lor_ne_zero_right _ (by decide)
      simp [SerialPortImpl.SetParity, SerialPortImpl.GetParity,
        SerialPortImpl.applyCflag, h, hg, hs, hg2, ← hc, h1, h2]
    | none =>
      have h1 : (c &&& compl32 PARENB) &&& PARENB = 0 :=
        land_land_eq_zero c (by decide)
      simp [SerialPortImpl.SetParity, SerialPortImpl.GetParity,
        SerialPortImpl.applyCflag, h, hg, hs, hg2, ← hc, h1]
  · intro b hb
    cases b with
    | invalid => exact absurd rfl hb
    | one =>
      have h1 : (c &&& compl32 CSTOPB) &&& CSTOPB = 0 :=
        land_land_eq_zero c (by decide)
      simp [SerialPortImpl.SetNumOfStopBits, SerialPortImpl.GetNumOfStopBits,
        SerialPortImpl.applyCflag, h, hg, hs, hg2, ← hc, h1]
    | two =>
      have h1 : (c ||| CSTOPB) &&& CSTOPB ≠ 0 := by
        rw [lor_land_distrib, (by decide : CSTOPB &&& CSTOPB = CSTOPB)]
        exact lor_ne_zero_right _ (by decide)
      simp [SerialPortImpl.SetNumOfStopBits, SerialPortImpl.GetNumOfStopBits,
        SerialPortImpl.applyCflag, h, hg, hs, hg2, ← hc, h1]
  · intro f hf
    cases f with
    | invalid => exact absurd rfl hf
    | hard =>
      have h1 : (c ||| CRTSCTS) &&& CRTSCTS ≠ 0 := by
        rw [lor_land_distrib, (by decide : CRTSCTS &&& CRTSCTS = CRTSCTS)]
        exact lor_ne_zero_right _ (by decide)
      simp [SerialPortImpl.SetFlowControl, SerialPortImpl.GetFlowControl,
        SerialPortImpl.applyCflag, h, hg, hs, hg2, ← hc, h1]
    | none =>
      have h1 : (c &&& compl32 CRTSCTS) &&& CRTSCTS = 0 :=
        land_land_eq_zero c (by decide)
      simp [SerialPortImpl.SetFlowControl, SerialPortImpl.GetFlowControl,
        SerialPortImpl.applyCflag, h, hg, hs, hg2, ← hc, h1]
  · intro s hsz
    have hmask : ∀ v : Nat, v &&& CSIZE = v →
        ((c &&& compl32 CSIZE) ||| v) &&& CSIZE = v := by
      intro v hv
      rw [lor_land_distrib, land_land_eq_zero c (by decide), Nat.zero_or, hv]
    simp only [charSizes, List.mem_cons, List.not_mem_nil, or_false] at hsz
    rcases hsz with rfl | rfl | rfl | rfl
    all_goals
      (simp [SerialPortImpl.SetCharSize, SerialPortImpl.GetCharSize,
        SerialPortImpl.applyCflag, h, hg, hs, hg2, ← hc]
       exact hmask _ (by decide))

/-- Witness for C4: a concrete open handle round-trips `SetParity odd`,
`SetNumOfStopBits two`, `SetFlowControl hard` and `SetCharSize CS7`. -/
theorem set_then_get_roundTrip_witness :
    (SerialPortImpl.GetParity stOpen
      (SerialPortImpl.SetParity .odd stOpen os0 envAllOk).os envAllOk).result =
        .ok .odd ∧
    (SerialPortImpl.GetNumOfStopBits stOpen
      (SerialPortImpl.SetNumOfStopBits .two stOpen os0 envAllOk).os
        envAllOk).result = .ok .two ∧
    (SerialPortImpl.GetFlowControl stOpen
      (SerialPortImpl.SetFlowControl .hard stOpen os0 envAllOk).os
        envAllOk).result = .ok .hard ∧
    (SerialPortImpl.GetCharSize stOpen
      (SerialPortImpl.SetCharSize CS7 stOpen os0 envAllOk).os envAllOk).result =
        .ok CS7 := by
  have h := set_then_get_roundTrip stOpen os0 envAllOk envAllOk rfl rfl rfl rfl
  exact ⟨h.1 .odd (by decide), h.2.1 .two (by decide), h.2.2.1 .hard (by decide),
    h.2.2.2 CS7 (by decide)⟩

/-- C5: on an open handle whose settings fetch succeeds, calling
`SetParity`, `SetNumOfStopBits` or `SetFlowControl` with a value outside
the legal enumeration fails with `std::invalid_argument`, the trace ends
at the `tcgetattr` (no `tcsetattr` settings write is attempted), and both
the handle state and the OS line-discipline configuration are left
unchanged. -/
theorem set_invalid_enum_atomic (st : PortState) (os : OsState) (env : Env)
    (h : st.mIsOpen = true) (hg : env.getOk = true) :
    SerialPortImpl.SetParity .invalid st os env =
      ⟨.err .InvalidArgument, st, os, [.tcgetattrCall]⟩ ∧
    SerialPortImpl.SetNumOfStopBits .invalid st os env =
      ⟨.err .InvalidArgument, st, os, [.tcgetattrCall]⟩ ∧
    SerialPortImpl.SetFlowControl .invalid st os env =
      ⟨.err .InvalidArgument, st, os, [.tcgetattrCall]⟩ ∧
    OsCall.tcsetattrCall ∉ (SerialPortImpl.SetParity .invalid st os env).trace ∧
    OsCall.tcsetattrCall ∉
      (SerialPortImpl.SetNumOfStopBits .invalid st os env).trace ∧
    OsCall.tcsetattrCall ∉
      (SerialPortImpl.SetFlowControl .invalid st os env).trace := by
  refine ⟨?_, ?_, ?_, ?_, ?_, ?_⟩ <;>
    simp [SerialPortImpl.SetParity, SerialPortImpl.SetNumOfStopBits,
      SerialPortImpl.SetFlowControl, h, hg]

/-- Witness for C5 at a concrete open handle. -/
theorem set_invalid_enum_atomic_witness :
    SerialPortImpl.SetParity .invalid stOpen os0 envAllOk =
      ⟨.err .InvalidArgument, stOpen, os0, [.tcgetattrCall]⟩ ∧
    SerialPortImpl.SetFlowControl .invalid stOpen os0 envAllOk =
      ⟨.err .InvalidArgument, stOpen, os0, [.tcgetattrCall]⟩ := by
  have h := set_invalid_enum_atomic stOpen os0 envAllOk rfl rfl
  exact ⟨h.1, h.2.2.1⟩

/-- C6: `Close` fails with `NotOpen` exactly when the handle is already
closed (and then changes nothing); on an open handle it reports success,
transitions the handle to closed, releases the descriptor from the OS's
live set, and restores the `savedSettings` snapshot when the `tcsetattr`
restoration succeeds — and still succeeds and releases the descriptor
when the restoration call fails, which is never surfaced to the caller. -/
theorem close_contract (st : PortState) (os : OsState) (env : Env) :
    ((SerialPortImpl.Close st os env).result = .err .NotOpen ↔
      st.mIsOpen = false) ∧
    (st.mIsOpen = false →
      SerialPortImpl.Close st os env = ⟨.err .NotOpen, st, os, []⟩) ∧
    (st.mIsOpen = true →
      (SerialPortImpl.Close st os env).result = .ok () ∧
      (SerialPortImpl.Close st os env).port.mIsOpen = false ∧
      (SerialPortImpl.Close st os env).os.liveFds =
        os.liveFds.erase st.mFileDescriptor ∧
      (env.setOk = true →
        (SerialPortImpl.Close st os env).os.dev = st.mOldPortSettings) ∧
      (env.setOk = false →
        (SerialPortImpl.Close st os env).os.dev = os.dev)) := by
  cases hopen : st.mIsOpen <;> cases hset : env.setOk <;>
    simp [SerialPortImpl.Close, hopen, hset]

/-- Witness for C6: closing a concrete open handle succeeds, closes it,
removes descriptor 3 from the live list, and restores the snapshot;
closing a closed handle fails with `NotOpen`. -/
theorem close_contract_witness :
    (SerialPortImpl.Close stOpen os0 envAllOk).result = .ok () ∧
    (SerialPortImpl.Close stOpen os0 envAllOk).os.liveFds = [] ∧
    (SerialPortImpl.Close stClosed os0 envAllOk).result = .err .NotOpen := by
  have ho := (close_contract stOpen os0 envAllOk).2.2 rfl
  have hc := (close_contract stClosed os0 envAllOk).2.1 rfl
  refine ⟨ho.1, ?_, by rw [hc]⟩
  rw [ho.2.2.1]
  decide

/-- C7: a successful `Open` on a closed handle captures the device's
current settings into `mOldPortSettings` and applies the baseline
configuration starting from those settings: `c_lflag` and `c_oflag`
cleared, `CREAD` and `CLOCAL` ORed into `c_cflag`, `VMIN` and `VTIME`
zero, with the input flags and speeds untouched; afterwards the handle is
open. -/
theorem open_success_baseline (st : PortState) (os : OsState) (env : Env)
    (h : st.mIsOpen = false) (ho : env.openOk = true) (hg : env.getOk = true)
    (hs : env.setOk = true) (hf : env.fcntlOk = true) :
    (SerialPortImpl.Open st os env).result = .ok () ∧
    (SerialPortImpl.Open st os env).port.mIsOpen = true ∧
    (SerialPortImpl.Open st os env).port.mOldPortSettings = os.dev ∧
    (SerialPortImpl.Open st os env).os.dev.c_lflag = 0 ∧
    (SerialPortImpl.Open st os env).os.dev.c_oflag = 0 ∧
    (SerialPortImpl.Open st os env).os.dev.c_cflag =
      os.dev.c_cflag ||| (CREAD ||| CLOCAL) ∧
    (SerialPortImpl.Open st os env).os.dev.vmin = 0 ∧
    (SerialPortImpl.Open st os env).os.dev.vtime = 0 ∧
    (SerialPortImpl.Open st os env).os.dev.c_iflag = os.dev.c_iflag ∧
    (SerialPortImpl.Open st os env).os.dev.ispeed = os.dev.ispeed ∧
    (SerialPortImpl.Open st os env).os.dev.ospeed = os.dev.ospeed := by
  simp [SerialPortImpl.Open, h, ho, hg, hs, hf]

/-- Witness for C7 at a concrete closed handle and all-success
environment. -/
theorem open_success_baseline_witness :
    (SerialPortImpl.Open stClosed os0 envAllOk).result = .ok () ∧
    (SerialPortImpl.Open stClosed os0 envAllOk).port.mIsOpen = true ∧
    (SerialPortImpl.Open stClosed os0 envAllOk).os.dev.c_cflag =
      t0.c_cflag ||| (CREAD ||| CLOCAL) := by
  have h := open_success_baseline stClosed os0 envAllOk rfl rfl rfl rfl rfl
  exact ⟨h.1, h.2.1, h.2.2.2.2.2.1⟩

/-- As long as every poll so far returned `false`, after `j` iterations
the busy-wait loop of `ReadByte` is still polling, at index `j`. -/
theorem pollStep_iter_below (avail : Nat → Bool) :
    ∀ j, (∀ i, i < j → avail i = false) →
      (pollStep avail)^[j] (some 0) = some j := by
  intro j
  induction j with
  | zero => intro _; simp
  | succ k ih =>
    intro hj
    rw [Function.iterate_succ_apply', ih fun i hi => hj i (Nat.lt_succ_of_lt hi)]
    simp [pollStep, hj k (Nat.lt_succ_self k)]

/-- C8: the busy-wait loop of `ReadByte` has no sleep, yield or iteration
bound: if no poll ever reports data, after every number `j` of iterations
it is still polling (it spins forever), and if some poll reports data it
exits right after the first such poll; an open-handle `ReadByte` whose
poll sequence reports data at index `n` performs exactly one single-byte
`read`, after `n + 1` polls, and returns the byte that `read` produced. -/
theorem readByte_poll_termination (avail : Nat → Bool) :
    ((∀ n, avail n = false) → ∀ j, (pollStep avail)^[j] (some 0) = some j) ∧
    (∀ h : ∃ n, avail n = true,
      (pollStep avail)^[Nat.find h + 1] (some 0) = Option.none) ∧
    (∀ (st : PortState) (os : OsState) (env : Env), st.mIsOpen = true →
      env.ioctlOk = true → env.readOk = true →
      ∀ n, env.avail.findIdx? (fun b => b) = some n →
        (SerialPortImpl.ReadByte st os env).trace =
          List.replicate (n + 1) OsCall.ioctlCall ++ [OsCall.readCall] ∧
        (SerialPortImpl.ReadByte st os env).trace.count OsCall.readCall = 1 ∧
        (SerialPortImpl.ReadByte st os env).result = some (.ok env.readVal)) := by
  refine ⟨?_, ?_, ?_⟩
  · intro hall j
    exact pollStep_iter_below avail j fun i _ => hall i
  · intro h
    have hspec := Nat.find_spec h
    have hbelow : ∀ i, i < Nat.find h → avail i = false := by
      intro i hi
      have hmin := Nat.find_min h hi
      revert hmin
      cases avail i <;> simp
    rw [Function.iterate_succ_apply', pollStep_iter_below avail _ hbelow]
    simp [pollStep, hspec]
  · intro st os env h hio hr n hfind
    refine ⟨?_, ?_, ?_⟩ <;>
      simp [SerialPortImpl.ReadByte, h, hio, hr, hfind, List.count_append,
        List.count_replicate]

/-- Witness for C8: with data available at the first poll the loop exits
after one step; a concrete open-handle `ReadByte` makes one read and
returns its byte; with data never available the loop is still polling
after seven steps. -/
theorem readByte_poll_termination_witness :
    (pollStep (fun _ => true))^[Nat.find (⟨0, rfl⟩ :
        ∃ n, (fun _ => true) n = true) + 1] (some 0) = Option.none ∧
    (SerialPortImpl.ReadByte stOpen os0 envAllOk).result = some (.ok 65) ∧
    (SerialPortImpl.ReadByte stOpen os0 envAllOk).trace.count
      OsCall.readCall = 1 ∧
    (pollStep (fun _ => false))^[7] (some 0) = some 7 := by
  have h1 := (readByte_poll_termination (fun _ => true)).2.1 ⟨0, rfl⟩
  have h2 := (readByte_poll_termination (fun _ => false)).1 (fun _ => rfl) 7
  have h3 := (readByte_poll_termination (fun _ => true)).2.2 stOpen os0 envAllOk
    rfl rfl rfl 0 (by decide)
  exact ⟨h1, h3.2.2, h3.2.1, h2⟩

/-- C9: `SetBaudRate` fails with `UnsupportedBaudRate` in exactly two
situations — the handle is open, the settings fetch succeeds, and either
the OS rejects the requested rate (`cfsetispeed`/`cfsetospeed` fail on a
code outside the legal list) or the `tcsetattr` settings write fails (in
which case the device keeps its previous rate, so the OS-accepted rate
differs from the requested one); and after a successful return the
OS-accepted input and output rates equal the requested rate. -/
theorem setBaudRate_unsupported_iff (st : PortState) (os : OsState) (env : Env)
    (baudRate : Nat) :
    ((SerialPortImpl.SetBaudRate baudRate st os env).result =
        .err .UnsupportedBaudRate ↔
      (st.mIsOpen = true ∧ env.getOk = true ∧
        (baudRate ∉ baudRates ∨ env.setOk = false))) ∧
    (st.mIsOpen = true → env.getOk = true → baudRate ∈ baudRates →
      env.setOk = false →
      (SerialPortImpl.SetBaudRate baudRate st os env).os.dev = os.dev) ∧
    ((SerialPortImpl.SetBaudRate baudRate st os env).result = .ok () →
      (SerialPortImpl.SetBaudRate baudRate st os env).os.dev.ispeed = baudRate ∧
      (SerialPortImpl.SetBaudRate baudRate st os env).os.dev.ospeed = baudRate) := by
  cases hopen : st.mIsOpen <;> cases hget : env.getOk <;>
    by_cases hmem : baudRate ∈ baudRates <;> cases hset : env.setOk <;>
      simp [SerialPortImpl.SetBaudRate, hopen, hget, hmem, hset]

/-- Witness for C9: on a concrete open handle, requesting the illegal
code 9999 yields `UnsupportedBaudRate`, and requesting the legal code 13
(`B9600`) succeeds with the device's accepted rate equal to 13. -/
theorem setBaudRate_unsupported_iff_witness :
    (SerialPortImpl.SetBaudRate 9999 stOpen os0 envAllOk).result =
      .err .UnsupportedBaudRate ∧
    (SerialPortImpl.SetBaudRate 13 stOpen os0 envAllOk).os.dev.ispeed = 13 := by
  have h1 := (setBaudRate_unsupported_iff stOpen os0 envAllOk 9999).1.mpr
    ⟨rfl, rfl, Or.inl (by decide)⟩
  have h2 := (setBaudRate_unsupported_iff stOpen os0 envAllOk 13).2.2 (by decide)
  exact ⟨h1, h2.1⟩

/-- C10: `GetParity`, `GetNumOfStopBits` and `GetFlowControl` each carry
the declared exception set `{NotOpen}`, yet on an open handle whose
settings fetch fails each raises `std::runtime_error` — an error outside
its declared exception set. -/
theorem getters_undeclared_runtimeErr (st : PortState) (os : OsState)
    (env : Env) (h : st.mIsOpen = true) (hg : env.getOk = false) :
    (SerialPortImpl.GetParity st os env).result = .err .RuntimeErr ∧
    Err.RuntimeErr ∉ declaredErrorsGetParity ∧
    (SerialPortImpl.GetNumOfStopBits st os env).result = .err .RuntimeErr ∧
    Err.RuntimeErr ∉ declaredErrorsGetNumOfStopBits ∧
    (SerialPortImpl.GetFlowControl st os env).result = .err .RuntimeErr ∧
    Err.RuntimeErr ∉ declaredErrorsGetFlowControl := by
  refine ⟨?_, by decide, ?_, by decide, ?_, by decide⟩ <;>
    simp [SerialPortImpl.GetParity, SerialPortImpl.GetNumOfStopBits,
      SerialPortImpl.GetFlowControl, h, hg]

/-- Witness for C10 at a concrete open handle with a failing settings
fetch. -/
theorem getters_undeclared_runtimeErr_witness :
    (SerialPortImpl.GetParity stOpen os0
      ⟨true, 3, false, true, true, true, true, true, 65, 1, [true]⟩).result =
        .err .RuntimeErr ∧
    Err.RuntimeErr ∉ declaredErrorsGetParity := by
  have h := getters_undeclared_runtimeErr stOpen os0
    ⟨true, 3, false, true, true, true, true, true, 65, 1, [true]⟩ rfl rfl
  exact ⟨h.1, h.2.1⟩

/-- An environment whose `open` succeeds (returning descriptor 3) but
whose subsequent `tcgetattr` fails, driving `Open` down the
settings-fetch failure path. -/
def envLeak : Env := ⟨true, 3, false, true, true, true, true, true, 65, 1, [true]⟩

/-- C1 (code bug): the full-open overload `SerialPort::Open(baudRate,
charSize, parityType, stopBits, flowControl)` never applies the requested
baud rate.  Its result is identical for any two baud-rate arguments, and
on a concrete run that requests code 4098 (`B115200`) on a device whose
rate is 0 the call reports success while the device's rate is still 0 —
`SetBaudRate` is never invoked, even though the overload's declared
exception set contains `UnsupportedBaudRate`. -/
theorem fullOpen_ignores_baudRate_bug :
    (∀ (r1 r2 cs : Nat) (p : Parity) (b : StopBits) (f : FlowControl)
        (st : PortState) (os : OsState) (env : Env),
      SerialPort.OpenFull r1 cs p b f st os env =
        SerialPort.OpenFull r2 cs p b f st os env) ∧
    (SerialPort.OpenFull 4098 CS8 Parity.none StopBits.one FlowControl.none
      stClosed os0 envAllOk).result = .ok () ∧
    (SerialPort.OpenFull 4098 CS8 Parity.none StopBits.one FlowControl.none
      stClosed os0 envAllOk).os.dev.ispeed = 0 ∧
    (0 : Nat) ≠ 4098 := by
  exact ⟨fun _ _ _ _ _ _ _ _ _ => rfl, rfl, rfl, by decide⟩

/-- C2 (code bug): when `Open` fails after the OS `open` has already
succeeded (here: the settings fetch fails), the newly allocated
descriptor 3 remains in the OS's live-descriptor list, the handle is left
marked closed, an explicit `Close` refuses with `NotOpen`, and the
destructor does nothing — so the descriptor is leaked, contradicting the
claim that a failed `Open` leaves no live descriptor. -/
theorem open_failure_leaks_descriptor_bug :
    (SerialPortImpl.Open stClosed ⟨[], t0⟩ envLeak).result = .err .OpenFailed ∧
    (SerialPortImpl.Open stClosed ⟨[], t0⟩ envLeak).port.mIsOpen = false ∧
    (SerialPortImpl.Open stClosed ⟨[], t0⟩ envLeak).os.liveFds = [3] ∧
    (SerialPortImpl.Close (SerialPortImpl.Open stClosed ⟨[], t0⟩ envLeak).port
      (SerialPortImpl.Open stClosed ⟨[], t0⟩ envLeak).os envLeak).result =
        .err .NotOpen ∧
    SerialPortImpl.dtor (SerialPortImpl.Open stClosed ⟨[], t0⟩ envLeak).port
      (SerialPortImpl.Open stClosed ⟨[], t0⟩ envLeak).os envLeak =
      ((SerialPortImpl.Open stClosed ⟨[], t0⟩ envLeak).port,
        (SerialPortImpl.Open stClosed ⟨[], t0⟩ envLeak).os) := by
  exact ⟨rfl, rfl, rfl, rfl, rfl⟩

end LibSerial
